import Mathlib

/-!
# Verification of the smorrery backend and texture downloader

Shallow embedding in Lean 4 of the two source files of the repository:

* `app.py` — a Flask app with two query endpoints (`sbdb_query`,
  `sbdb_CA_query`) that fetch JSON from NASA's SBDB/CAD APIs and cache the
  result in a process-global variable and an on-disk JSON file, a view
  endpoint (`orrery`) that reads the cache, and an index route.
* `static/SSS_downloader.py` — a sequential texture-downloading batch job.

Python values that can appear in the cache slot all come from JSON parsing,
so they are modelled by the `Json` type below; Python `None` is identified
with `Json.null` (in CPython, `json.loads "null"` *is* `None`, the same
object used as the empty-cache sentinel in `app.py`).
-/

set_option autoImplicit false

namespace Smorrery

/-- JSON values, doubling as the Python values produced by `response.json()`
and `json.load`.  `null` also models Python `None`. Numbers are modelled as
integers; no claim performs numeric computation on them. -/
inductive Json where
  | null : Json
  | bool (b : Bool) : Json
  | num (n : Int) : Json
  | str (s : String) : Json
  | arr (xs : List Json) : Json
  | obj (kvs : List (String × Json)) : Json
  deriving Repr

/-- Python exceptions that the embedded code can raise. -/
inductive PyErr where
  | indexError : PyErr
  | keyError : PyErr
  | typeError : PyErr
  | attributeError : PyErr
  | fileNotFoundError : PyErr
  | jsonDecodeError : PyErr
  deriving DecidableEq, Repr

/-- Python subscripting `j[i]` for a non-negative integer index `i`:
defined on lists (`IndexError` when out of range) and strings (a one-character
string, `IndexError` when out of range); `dict[i]` raises `KeyError` (JSON
object keys are strings, never the integer `i`); other values raise
`TypeError`. -/
def pyIndex (j : Json) (i : Nat) : Except PyErr Json :=
  match j with
  | .arr xs =>
      match xs.get? i with
      | some v => .ok v
      | none => .error .indexError
  | .str s =>
      match s.toList.get? i with
      | some c => .ok (.str (String.mk [c]))
      | none => .error .indexError
  | .obj _ => .error .keyError
  | _ => .error .typeError

/-- Python `j.get(k, default)`: defined on dicts (first binding of `k`, JSON
objects have unique keys), `AttributeError` on any other value. -/
def pyGet (j : Json) (k : String) (default : Json) : Except PyErr Json :=
  match j with
  | .obj kvs => .ok (((kvs.lookup k).getD default))
  | _ => .error .attributeError

/-- Python iteration `for item in j`: lists yield their elements, strings
their characters (as one-character strings), dicts their keys; other values
raise `TypeError`. -/
def pyIter (j : Json) : Except PyErr (List Json) :=
  match j with
  | .arr xs => .ok xs
  | .str s => .ok (s.toList.map (fun c => .str (String.mk [c])))
  | .obj kvs => .ok (kvs.map (fun kv => .str kv.1))
  | _ => .error .typeError

/-- State of an on-disk file as far as `json.load`/`json.dump` are
concerned: missing (`FileNotFoundError` on open), present but not valid
JSON (`json.load` raises), or present with a parsed JSON content. -/
inductive FileState where
  | absent : FileState
  | corrupt : FileState
  | present (content : Json) : FileState
  deriving Repr

/-- The mutable state of the Flask process: the global `sbdb_data`
(initially `None`, i.e. `Json.null`), the global `sbdb_CA_data` (unbound
before the first close-approach query), and the two cache files in the
working directory. -/
structure ServerState where
  sbdb_data : Json
  sbdb_CA_data : Option (List Json)
  neo20 : FileState
  neoCA : FileState
  deriving Repr

/-- An upstream HTTP response as seen through the `requests` API:
`status_code`, the parsed JSON body (`response.json()`, only consulted on
status 200) and the raw text (`response.text`, only consulted otherwise). -/
structure UpstreamResponse where
  status : Nat
  body : Json
  text : String

/-- What a Flask handler hands back: a `jsonify` response with a status
code, or a rendered template (the orrery page embeds the cached data; the
index page has none). -/
inductive HttpResult where
  | json (body : Json) (status : Nat) : HttpResult
  | page (template : String) (data : Option Json) : HttpResult
  deriving Repr

/-- The error envelope `{"error": "Unable to fetch data", "details": response.text}`
built by both query endpoints on a non-200 upstream status. -/
def errorEnvelope (text : String) : Json :=
  .obj [("error", .str "Unable to fetch data"), ("details", .str text)]

/-- `app.py` lines 34–57, route `/api/sbdb_query`.  On upstream status 200:
stores the parsed body into the global `sbdb_data`, dumps it to `neo20.json`,
and returns it with status 200.  Otherwise: returns the error envelope with
the upstream status code, touching no state. -/
def sbdb_query (resp : UpstreamResponse) (s : ServerState) :
    Except PyErr HttpResult × ServerState :=
  if resp.status = 200 then
    let d := resp.body
    (.ok (.json d 200), { s with sbdb_data := d, neo20 := .present d })
  else
    (.ok (.json (errorEnvelope resp.text) resp.status), s)

/-- `app.py` lines 77–82, the body of the projection loop: builds
`{"des": item[0], "cd": item[3], "dist": item[4]}`, evaluating the three
subscripts left to right. -/
def projectItem (item : Json) : Except PyErr Json :=
  match pyIndex item 0 with
  | .error e => .error e
  | .ok d =>
      match pyIndex item 3 with
      | .error e => .error e
      | .ok c =>
          match pyIndex item 4 with
          | .error e => .error e
          | .ok di => .ok (.obj [("des", d), ("cd", c), ("dist", di)])

/-- The `for item in ...: sbdb_CA_data.append(...)` loop: returns the list
accumulated so far together with the first exception, if any (on an
exception the global keeps the partial list built before it). -/
def projectLoop (acc : List Json) : List Json → List Json × Option PyErr
  | [] => (acc, none)
  | item :: rest =>
      match projectItem item with
      | .ok r => projectLoop (acc ++ [r]) rest
      | .error e => (acc, some e)

/-- `app.py` lines 59–89, route `/api/sbdb_CA_query`.  On upstream status
200: re-binds the global `sbdb_CA_data` to `[]`, iterates over
`data.get("data", [])` appending the positional projection of each row,
dumps the projected list to `neoCA.json` and returns it; any exception in
the iteration or projection propagates unhandled, with whatever partial
list the global holds at that point.  Otherwise: returns the error envelope
with the upstream status code, touching no state. -/
def sbdb_CA_query (resp : UpstreamResponse) (s : ServerState) :
    Except PyErr HttpResult × ServerState :=
  if resp.status = 200 then
    match pyGet resp.body "data" (.arr []) with
    | .error e => (.error e, { s with sbdb_CA_data := some [] })
    | .ok dataVal =>
        match pyIter dataVal with
        | .error e => (.error e, { s with sbdb_CA_data := some [] })
        | .ok items =>
            match projectLoop [] items with
            | (acc, some e) => (.error e, { s with sbdb_CA_data := some acc })
            | (acc, none) =>
                (.ok (.json (.arr acc) 200),
                  { s with sbdb_CA_data := some acc, neoCA := .present (.arr acc) })
  else
    (.ok (.json (errorEnvelope resp.text) resp.status), s)

/-- `app.py` lines 100–111, route `/orrery`.  If the global `sbdb_data` is
`None`, tries `json.load(open("neo20.json"))`: only `FileNotFoundError` is
caught (yielding the `{"error": "No data available"}` payload, Flask default
status 200); a file that exists but fails to parse raises an unhandled
`json.JSONDecodeError`.  Otherwise renders `orrery.html` with the cached
data. -/
def orrery (s : ServerState) : Except PyErr HttpResult × ServerState :=
  match s.sbdb_data with
  | .null =>
      match s.neo20 with
      | .absent =>
          (.ok (.json (.obj [("error", .str "No data available")]) 200), s)
      | .corrupt => (.error .jsonDecodeError, s)
      | .present j =>
          (.ok (.page "orrery.html" (some j)), { s with sbdb_data := j })
  | d => (.ok (.page "orrery.html" (some d)), s)

/-- `app.py` lines 94–96, route `/`: renders `sheet.html` with no data. -/
def index (s : ServerState) : Except PyErr HttpResult × ServerState :=
  (.ok (.page "sheet.html" none), s)

/-- One request arriving at the server: either query endpoint (together with
the upstream response it observes), the orrery view, or the index page. -/
inductive ServerOp where
  | bodiesQuery (resp : UpstreamResponse) : ServerOp
  | caQuery (resp : UpstreamResponse) : ServerOp
  | viewOrrery : ServerOp
  | viewIndex : ServerOp

/-- Dispatch of one request against the current process state. -/
def stepServer (s : ServerState) : ServerOp → Except PyErr HttpResult × ServerState
  | .bodiesQuery resp => sbdb_query resp s
  | .caQuery resp => sbdb_CA_query resp s
  | .viewOrrery => orrery s
  | .viewIndex => index s

/-- Process start: `sbdb_data = None` (line 11), `sbdb_CA_data` unbound;
the files in the working directory may be in any state left over from a
previous run. -/
def initialState (neo20 neoCA : FileState) : ServerState :=
  { sbdb_data := .null, sbdb_CA_data := none, neo20 := neo20, neoCA := neoCA }

/-- The whole computation a close-approach 200-response triggers, as one
value: look up `"data"` (default `[]`), iterate, project every row; the
first exception, if any, is the one the endpoint raises. -/
def caProjection (body : Json) : Except PyErr (List Json) :=
  match pyGet body "data" (.arr []) with
  | .error e => .error e
  | .ok dataVal =>
      match pyIter dataVal with
      | .error e => .error e
      | .ok items =>
          match projectLoop [] items with
          | (_, some e) => .error e
          | (acc, none) => .ok acc

/-! ## `static/SSS_downloader.py` -/

/-- `SSS_downloader.py` line 7: directory the textures are saved to. -/
def TEXTURE_DIR : String := "./textures"

/-- `SSS_downloader.py` line 13: URL prefix of the texture host. -/
def URL_PREFIX_1 : String :=
  "https://www.solarsystemscope.com/textures/download/"

/-- `SSS_downloader.py` lines 16–29: the configured mapping of logical
texture names to remote file names, in insertion order (Python dicts
preserve it). -/
def SSS_TEXTURES : List (String × String) :=
  [("SUN", "2k_sun.jpg"),
   ("MERCURY", "2k_mercury.jpg"),
   ("VENUS", "2k_venus_surface.jpg"),
   ("EARTH", "2k_earth_daymap.jpg"),
   ("MOON", "2k_moon.jpg"),
   ("MARS", "2k_mars.jpg"),
   ("JUPITER", "2k_jupiter.jpg"),
   ("SATURN", "2k_saturn.jpg"),
   ("SATURN_RING", "2k_saturn_ring_alpha.jpg"),
   ("URANUS", "2k_uranus.jpg"),
   ("NEPTUNE", "2k_neptune.jpg"),
   ("MILKY_WAY", "2k_stars_milky_way.jpg")]

/-- `os.path.join(TEXTURE_DIR, filename)` for the arguments this script
passes: a relative directory and a bare file name, joined with one `/`. -/
def pathJoin (a b : String) : String := a ++ "/" ++ b

/-- Python `s.replace("./", "")` on the character list: removes every
occurrence of `./`, scanning left to right. -/
def stripDotSlash : List Char → List Char
  | [] => []
  | '.' :: '/' :: rest => stripDotSlash rest
  | c :: rest => c :: stripDotSlash rest

/-- Python `s.replace("./", "")` on strings. -/
def pyReplaceDotSlash (s : String) : String := String.mk (stripDotSlash s.toList)

/-- `SSS_downloader.py` lines 32–57, `download_image`: issues a GET for
`URL_PREFIX_1 + filename` (the network is the oracle `net`, `true` meaning
the request succeeded), writes the body to `os.path.join(TEXTURE_DIR,
filename)` and returns that path; a `requests.exceptions.RequestException`
is caught, logged, and turned into `None`. -/
def download_image (net : String → Bool) (filename : String) : Option String :=
  if net (URL_PREFIX_1 ++ filename) then some (pathJoin TEXTURE_DIR filename)
  else none

/-- `SSS_downloader.py` lines 91–94, the download-mode loop over
`SSS_TEXTURES.items()`: calls `download_image` for every entry, recording
an entry `name ↦ local_path.replace("./", "")` only when it returned a
path.  The second component records, in order, each name for which
`download_image` was invoked. -/
def mainLoop (net : String → Bool) :
    List (String × String) → List (String × String) × List String
  | [] => ([], [])
  | (name, filename) :: rest =>
      let r := download_image net filename
      let (paths, attempts) := mainLoop net rest
      match r with
      | some p => ((name, pyReplaceDotSlash p) :: paths, name :: attempts)
      | none => (paths, name :: attempts)

/-- `SSS_downloader.py` lines 84–87, the paths-only loop: derives
`os.path.join(TEXTURE_DIR, filename).replace("./", "")` for every entry,
downloading nothing. -/
def pathsLoop : List (String × String) → List (String × String)
  | [] => []
  | (name, filename) :: rest =>
      (name, pyReplaceDotSlash (pathJoin TEXTURE_DIR filename)) :: pathsLoop rest

/-- `SSS_downloader.py` lines 70–98, `main` after argument parsing: the
`local_texture_paths` mapping it builds (in insertion order) together with
the list of names for which `download_image` was invoked. -/
def mainRun (pathsOnly : Bool) (net : String → Bool) :
    List (String × String) × List String :=
  if pathsOnly then (pathsLoop SSS_TEXTURES, [])
  else mainLoop net SSS_TEXTURES

/-! ## Auxiliary values for stating the claims -/

/-- The record the projection loop builds from a row that has at least five
elements: `{"des": row[0], "cd": row[3], "dist": row[4]}` (the `getD`
defaults are never reached under that length bound). -/
def projRow (xs : List Json) : Json :=
  .obj [("des", xs.getD 0 .null), ("cd", xs.getD 3 .null), ("dist", xs.getD 4 .null)]

/-- A 200-response body for the close-approach endpoint whose `"data"`
field is an array of array rows. -/
def mkCABody (rows : List (List Json)) : Json :=
  .obj [("data", .arr (rows.map Json.arr))]

/-- A network oracle on which exactly the request for the SUN texture
fails with a `RequestException`. -/
def netFail0 : String → Bool := fun u => !(u == URL_PREFIX_1 ++ "2k_sun.jpg")

/-! ## Helper lemmas -/

theorem projectItem_arr_long (xs : List Json) (h : 5 ≤ xs.length) :
    projectItem (.arr xs) = .ok (projRow xs) := by
  rcases xs with _ | ⟨a, _ | ⟨b, _ | ⟨c, _ | ⟨d, _ | ⟨e, rest⟩⟩⟩⟩⟩
  · simp at h
  · simp at h
  · simp at h
  · simp at h
  · simp at h
  · rfl

theorem projectItem_arr_short (xs : List Json) (h : xs.length < 5) :
    projectItem (.arr xs) = .error .indexError := by
  rcases xs with _ | ⟨a, _ | ⟨b, _ | ⟨c, _ | ⟨d, _ | ⟨e, rest⟩⟩⟩⟩⟩
  · rfl
  · rfl
  · rfl
  · rfl
  · rfl
  · simp at h
    omega

theorem projectLoop_all_long (rows : List (List Json))
    (h : ∀ r ∈ rows, 5 ≤ r.length) (acc : List Json) :
    projectLoop acc (rows.map Json.arr) = (acc ++ rows.map projRow, none) := by
  induction rows generalizing acc with
  | nil => simp [projectLoop]
  | cons r rest ih =>
      have hr : 5 ≤ r.length := h r (by simp)
      have htail : ∀ x ∈ rest, 5 ≤ x.length := fun x hx => h x (by simp [hx])
      simp [projectLoop, projectItem_arr_long r hr, ih htail]

theorem projectLoop_short_err (rows : List (List Json))
    (h : ∃ r ∈ rows, r.length < 5) (acc : List Json) :
    (projectLoop acc (rows.map Json.arr)).2 = some .indexError := by
  induction rows generalizing acc with
  | nil =>
      rcases h with ⟨r, hr, _⟩
      simp at hr
  | cons r rest ih =>
      by_cases hr : r.length < 5
      · simp [projectLoop, projectItem_arr_short r hr]
      · have h5 : 5 ≤ r.length := Nat.le_of_not_lt hr
        rcases h with ⟨x, hx, hxl⟩
        rcases List.mem_cons.mp hx with rfl | hx2
        · exact absurd hxl hr
        · simp [projectLoop, projectItem_arr_long r h5, ih ⟨x, hx2, hxl⟩]

theorem sbdb_CA_query_200 (resp : UpstreamResponse) (s : ServerState)
    (h : resp.status = 200) :
    (sbdb_CA_query resp s).1 =
      (caProjection resp.body).map (fun acc => HttpResult.json (.arr acc) 200) := by
  unfold sbdb_CA_query caProjection
  rcases h1 : pyGet resp.body "data" (.arr []) with e | dv
  · simp [h, h1, Except.map]
  · rcases h2 : pyIter dv with e | items
    · simp [h, h1, h2, Except.map]
    · rcases h3 : projectLoop [] items with ⟨acc, err⟩
      rcases err with _ | e <;> simp [h, h1, h2, h3, Except.map]

theorem sbdb_CA_query_sbdb_data (resp : UpstreamResponse) (s : ServerState) :
    (sbdb_CA_query resp s).2.sbdb_data = s.sbdb_data := by
  unfold sbdb_CA_query
  by_cases h : resp.status = 200
  · rcases h1 : pyGet resp.body "data" (.arr []) with e | dv
    · simp [h, h1]
    · rcases h2 : pyIter dv with e | items
      · simp [h, h1, h2]
      · rcases h3 : projectLoop [] items with ⟨acc, err⟩
        rcases err with _ | e <;> simp [h, h1, h2, h3]
  · simp [h]

theorem pathsLoop_eq_map (l : List (String × String)) :
    pathsLoop l = l.map (fun p => (p.1, pyReplaceDotSlash (pathJoin TEXTURE_DIR p.2))) := by
  induction l with
  | nil => rfl
  | cons p rest ih =>
      cases p
      simp [pathsLoop, ih]

theorem mainLoop_eq (net : String → Bool) (l : List (String × String)) :
    mainLoop net l =
      (l.filterMap (fun p =>
         if net (URL_PREFIX_1 ++ p.2) then
           some (p.1, pyReplaceDotSlash (pathJoin TEXTURE_DIR p.2))
         else none),
       l.map Prod.fst) := by
  induction l with
  | nil => rfl
  | cons p rest ih =>
      rcases p with ⟨name, filename⟩
      by_cases hn : net (URL_PREFIX_1 ++ filename) <;>
        simp [mainLoop, download_image, hn, ih]

/-! ## Claims -/

/-- C1: on an upstream 200, `sbdb_query` returns exactly the parsed upstream
body (status 200) and `sbdb_CA_query` returns exactly the positional
projection of it (as the same possibly-raising computation); on any other
upstream status `s`, both endpoints return the `{error, details}` envelope
together with that exact status `s`. -/
theorem C1_endpoint_output (resp : UpstreamResponse) (s : ServerState) :
    (resp.status = 200 →
      (sbdb_query resp s).1 = .ok (.json resp.body 200) ∧
      (sbdb_CA_query resp s).1 =
        (caProjection resp.body).map (fun acc => HttpResult.json (.arr acc) 200)) ∧
    (resp.status ≠ 200 →
      (sbdb_query resp s).1 = .ok (.json (errorEnvelope resp.text) resp.status) ∧
      (sbdb_CA_query resp s).1 = .ok (.json (errorEnvelope resp.text) resp.status)) := by
  constructor
  · intro h
    exact ⟨by simp [sbdb_query, h], sbdb_CA_query_200 resp s h⟩
  · intro h
    exact ⟨by simp [sbdb_query, h], by simp [sbdb_CA_query, h]⟩

/-- Witness for C1 at a concrete 200 response and a concrete 404 response. -/
theorem C1_endpoint_output_witness :
    (sbdb_query ⟨200, .obj [("x", .num 1)], "ok"⟩ (initialState .absent .absent)).1 =
      .ok (.json (.obj [("x", .num 1)]) 200) ∧
    (sbdb_CA_query ⟨404, .null, "nf"⟩ (initialState .absent .absent)).1 =
      .ok (.json (errorEnvelope "nf") 404) :=
  ⟨((C1_endpoint_output ⟨200, .obj [("x", .num 1)], "ok"⟩
      (initialState .absent .absent)).1 rfl).1,
   ((C1_endpoint_output ⟨404, .null, "nf"⟩
      (initialState .absent .absent)).2 (by decide)).2⟩

/-- C2 counterexample: with the memory cache empty and `neo20.json` present
but not valid JSON, the orrery endpoint does not return an error payload; it
raises an unhandled `json.JSONDecodeError` (only `FileNotFoundError` is
caught in `app.py` lines 105–109). -/
theorem C2_counterexample :
    (orrery (initialState .corrupt .absent)).1 = .error .jsonDecodeError := rfl

/-- C2 as amended: with the memory cache empty, a readable `neo20.json`
containing `{"x": 1}` makes the view render with that content; a missing
file yields the `{"error": "No data available"}` payload without an
unhandled error; a file that exists but is unreadable as JSON raises an
unhandled `JSONDecodeError`. -/
theorem C2_amended_view_fallback (s : ServerState) (j : Json)
    (h : s.sbdb_data = .null) :
    (s.neo20 = .present j → (orrery s).1 = .ok (.page "orrery.html" (some j))) ∧
    (s.neo20 = .absent →
      (orrery s).1 = .ok (.json (.obj [("error", .str "No data available")]) 200)) ∧
    (s.neo20 = .corrupt → (orrery s).1 = .error .jsonDecodeError) := by
  refine ⟨fun hf => ?_, fun hf => ?_, fun hf => ?_⟩ <;> simp [orrery, h, hf]

/-- Witness for C2's amended statement: the valid-file case with `{"x": 1}`
and the missing-file case, at concrete states. -/
theorem C2_amended_view_fallback_witness :
    ((orrery (initialState (.present (.obj [("x", .num 1)])) .absent)).1 =
      .ok (.page "orrery.html" (some (.obj [("x", .num 1)])))) ∧
    ((orrery (initialState .absent .absent)).1 =
      .ok (.json (.obj [("error", .str "No data available")]) 200)) :=
  ⟨(C2_amended_view_fallback (initialState (.present (.obj [("x", .num 1)])) .absent)
      (.obj [("x", .num 1)]) rfl).1 rfl,
   (C2_amended_view_fallback (initialState .absent .absent) .null rfl).2.1 rfl⟩

/-- C3: on any upstream status other than 200, both query endpoints return
the error envelope with that status and leave the whole cache state (the
globals `sbdb_data` and `sbdb_CA_data` and the files `neo20.json` and
`neoCA.json`) exactly as it was. -/
theorem C3_error_leaves_state (resp : UpstreamResponse) (s : ServerState)
    (h : resp.status ≠ 200) :
    (sbdb_query resp s).1 = .ok (.json (errorEnvelope resp.text) resp.status) ∧
    (sbdb_query resp s).2 = s ∧
    (sbdb_CA_query resp s).1 = .ok (.json (errorEnvelope resp.text) resp.status) ∧
    (sbdb_CA_query resp s).2 = s := by
  refine ⟨?_, ?_, ?_, ?_⟩ <;> simp [sbdb_query, sbdb_CA_query, h]

/-- Witness for C3 at a concrete 500 response. -/
theorem C3_error_leaves_state_witness :
    (sbdb_query ⟨500, .null, "boom"⟩ (initialState .absent .absent)).1 =
      .ok (.json (errorEnvelope "boom") 500) ∧
    (sbdb_query ⟨500, .null, "boom"⟩ (initialState .absent .absent)).2 =
      initialState .absent .absent ∧
    (sbdb_CA_query ⟨500, .null, "boom"⟩ (initialState .absent .absent)).1 =
      .ok (.json (errorEnvelope "boom") 500) ∧
    (sbdb_CA_query ⟨500, .null, "boom"⟩ (initialState .absent .absent)).2 =
      initialState .absent .absent :=
  C3_error_leaves_state ⟨500, .null, "boom"⟩ (initialState .absent .absent) (by decide)

/-- C4: the projection maps fixed positions to named fields — for any row
with elements `a, b, c, d, e, …`, index 0 becomes `"des"`, index 3 becomes
`"cd"` and index 4 becomes `"dist"`; in particular the row
`["2023 AB", null, null, "2024-01-01", "0.02", "x"]` projects to
`{"des": "2023 AB", "cd": "2024-01-01", "dist": "0.02"}`. -/
theorem C4_projection_positions (a b c d e : Json) (rest : List Json) :
    projectItem (.arr (a :: b :: c :: d :: e :: rest)) =
      .ok (.obj [("des", a), ("cd", d), ("dist", e)]) ∧
    projectItem (.arr [.str "2023 AB", .null, .null,
        .str "2024-01-01", .str "0.02", .str "x"]) =
      .ok (.obj [("des", .str "2023 AB"), ("cd", .str "2024-01-01"),
        ("dist", .str "0.02")]) :=
  ⟨rfl, rfl⟩

/-- C5 counterexample: after a successful query with body `{"x": 1}` the
slot is non-empty, and one further successful query whose parsed body is
JSON `null` stores Python `None` into it — an operation of the program that
clears the slot back to empty (in CPython, `json.loads "null"` is the very
`None` used as the empty sentinel). -/
theorem C5_counterexample :
    (sbdb_query ⟨200, .obj [("x", .num 1)], ""⟩
        (initialState .absent .absent)).2.sbdb_data ≠ .null ∧
    (sbdb_query ⟨200, .null, ""⟩
        ((sbdb_query ⟨200, .obj [("x", .num 1)], ""⟩
          (initialState .absent .absent)).2)).2.sbdb_data = .null := by
  constructor
  · intro hc
    rw [show (sbdb_query ⟨200, .obj [("x", .num 1)], ""⟩
        (initialState .absent .absent)).2.sbdb_data = Json.obj [("x", .num 1)]
      from rfl] at hc
    exact Json.noConfusion hc
  · rfl

/-- C5 as amended: the slot is empty (`None`) at process start; every
successful bodies query wholly overwrites it with the parsed response body
(never merged); and the only way an operation leaves the slot empty is that
it already was empty or the operation is a successful bodies query whose
parsed body is JSON `null` (which stores `None`, re-emptying the slot). -/
theorem C5_amended_lifecycle :
    (∀ f g, (initialState f g).sbdb_data = .null) ∧
    (∀ s resp, resp.status = 200 →
      (sbdb_query resp s).2.sbdb_data = resp.body) ∧
    (∀ s op, (stepServer s op).2.sbdb_data = .null →
      s.sbdb_data = .null ∨
      ∃ resp, op = .bodiesQuery resp ∧ resp.status = 200 ∧ resp.body = .null) := by
  refine ⟨fun f g => rfl, fun s resp h => by simp [sbdb_query, h], ?_⟩
  intro s op h
  cases op with
  | bodiesQuery resp =>
      by_cases hs : resp.status = 200
      · simp only [stepServer, sbdb_query, hs, if_true] at h
        exact Or.inr ⟨resp, rfl, hs, h⟩
      · simp only [stepServer, sbdb_query, hs, if_false] at h
        exact Or.inl h
  | caQuery resp =>
      rw [show (stepServer s (.caQuery resp)).2 = (sbdb_CA_query resp s).2 from rfl,
        sbdb_CA_query_sbdb_data] at h
      exact Or.inl h
  | viewOrrery =>
      rcases hd : s.sbdb_data with _ | b | n | st | xs | kvs
      · exact Or.inl rfl
      all_goals simp [stepServer, orrery, hd] at h
  | viewIndex => exact Or.inl h

/-- Witness for C5's amended statement at concrete states and operations. -/
theorem C5_amended_lifecycle_witness :
    (initialState .absent .absent).sbdb_data = .null ∧
    (sbdb_query ⟨200, .obj [("x", .num 1)], ""⟩
        (initialState .absent .absent)).2.sbdb_data = .obj [("x", .num 1)] ∧
    ((initialState .absent .absent).sbdb_data = .null ∨
      ∃ resp, ServerOp.viewIndex = .bodiesQuery resp ∧
        resp.status = 200 ∧ resp.body = .null) :=
  ⟨C5_amended_lifecycle.1 .absent .absent,
   C5_amended_lifecycle.2.1 (initialState .absent .absent)
     ⟨200, .obj [("x", .num 1)], ""⟩ rfl,
   C5_amended_lifecycle.2.2 (initialState .absent .absent) .viewIndex rfl⟩

/-- C6: issuing the same successful bodies query twice leaves `neo20.json`
holding exactly that call's response body, and the state after the second
call is exactly the state after the first — nothing is added or merged. -/
theorem C6_repeat_query_file (resp : UpstreamResponse) (s : ServerState)
    (h : resp.status = 200) :
    (sbdb_query resp (sbdb_query resp s).2).2.neo20 = .present resp.body ∧
    (sbdb_query resp (sbdb_query resp s).2).2 = (sbdb_query resp s).2 := by
  refine ⟨?_, ?_⟩ <;> simp [sbdb_query, h]

/-- Witness for C6 at a concrete 200 response. -/
theorem C6_repeat_query_file_witness :
    (sbdb_query ⟨200, .obj [("x", .num 1)], ""⟩
        (sbdb_query ⟨200, .obj [("x", .num 1)], ""⟩
          (initialState .absent .absent)).2).2.neo20 =
      .present (.obj [("x", .num 1)]) ∧
    (sbdb_query ⟨200, .obj [("x", .num 1)], ""⟩
        (sbdb_query ⟨200, .obj [("x", .num 1)], ""⟩
          (initialState .absent .absent)).2).2 =
      (sbdb_query ⟨200, .obj [("x", .num 1)], ""⟩ (initialState .absent .absent)).2 :=
  C6_repeat_query_file ⟨200, .obj [("x", .num 1)], ""⟩
    (initialState .absent .absent) rfl

/-- C7: in paths-only mode, `download_image` is never invoked (the list of
attempted names is empty) and the produced mapping has exactly one
local-path entry per configured texture name, in the configured order. -/
theorem C7_paths_only (net : String → Bool) :
    (mainRun true net).2 = [] ∧
    (mainRun true net).1.map Prod.fst = SSS_TEXTURES.map Prod.fst ∧
    (mainRun true net).1 =
      SSS_TEXTURES.map (fun p => (p.1, pyReplaceDotSlash (pathJoin TEXTURE_DIR p.2))) := by
  refine ⟨rfl, ?_, ?_⟩ <;> simp [mainRun, pathsLoop_eq_map]

/-- C8: in download mode, every configured name is attempted in the
configured order regardless of which requests fail, and the produced
mapping contains exactly the successful names with their local paths — a
failure for one name never prevents later names from being attempted and
succeeding. -/
theorem C8_download_failures_skip (net : String → Bool) :
    (mainRun false net).2 = SSS_TEXTURES.map Prod.fst ∧
    (mainRun false net).1 =
      SSS_TEXTURES.filterMap (fun p =>
        if net (URL_PREFIX_1 ++ p.2) then
          some (p.1, pyReplaceDotSlash (pathJoin TEXTURE_DIR p.2))
        else none) := by
  refine ⟨?_, ?_⟩ <;> simp [mainRun, mainLoop_eq]

/-- Witness for C8: with the SUN request failing, all twelve names are
still attempted and the remaining eleven succeed. -/
theorem C8_download_failures_skip_witness :
    (mainRun false netFail0).2 =
      ["SUN", "MERCURY", "VENUS", "EARTH", "MOON", "MARS", "JUPITER",
       "SATURN", "SATURN_RING", "URANUS", "NEPTUNE", "MILKY_WAY"] ∧
    (mainRun false netFail0).1 =
      [("MERCURY", "textures/2k_mercury.jpg"),
       ("VENUS", "textures/2k_venus_surface.jpg"),
       ("EARTH", "textures/2k_earth_daymap.jpg"),
       ("MOON", "textures/2k_moon.jpg"),
       ("MARS", "textures/2k_mars.jpg"),
       ("JUPITER", "textures/2k_jupiter.jpg"),
       ("SATURN", "textures/2k_saturn.jpg"),
       ("SATURN_RING", "textures/2k_saturn_ring_alpha.jpg"),
       ("URANUS", "textures/2k_uranus.jpg"),
       ("NEPTUNE", "textures/2k_neptune.jpg"),
       ("MILKY_WAY", "textures/2k_stars_milky_way.jpg")] := by
  have h := C8_download_failures_skip netFail0
  exact ⟨h.1.trans rfl, h.2.trans rfl⟩

/-- C9: the close-approach projection is partial — for a 200 response whose
`"data"` array consists of array rows, any row with fewer than 5 elements
makes `sbdb_CA_query` raise an unhandled `IndexError` instead of returning
a response, and when every row has at least 5 elements the endpoint returns
the projected list with status 200. -/
theorem C9_projection_totality (rows : List (List Json)) (s : ServerState)
    (t : String) :
    ((∃ r ∈ rows, r.length < 5) →
      (sbdb_CA_query ⟨200, mkCABody rows, t⟩ s).1 = .error .indexError) ∧
    ((∀ r ∈ rows, 5 ≤ r.length) →
      (sbdb_CA_query ⟨200, mkCABody rows, t⟩ s).1 =
        .ok (.json (.arr (rows.map projRow)) 200)) := by
  have hget : pyGet (mkCABody rows) "data" (.arr []) =
      .ok (.arr (rows.map Json.arr)) := by
    simp [mkCABody, pyGet, List.lookup]
  constructor
  · intro h
    have h2 := projectLoop_short_err rows h []
    rcases h3 : projectLoop [] (rows.map Json.arr) with ⟨acc, err⟩
    rw [h3] at h2
    simp only at h2
    subst h2
    simp [sbdb_CA_query, hget, pyIter, h3]
  · intro h
    have h2 := projectLoop_all_long rows h []
    simp [sbdb_CA_query, hget, pyIter, h2]

/-- Witness for C9: a single one-element row raises `IndexError`; a single
five-element row projects successfully. -/
theorem C9_projection_totality_witness :
    (sbdb_CA_query ⟨200, mkCABody [[Json.str "a"]], "t"⟩
        (initialState .absent .absent)).1 = .error .indexError ∧
    (sbdb_CA_query ⟨200, mkCABody
          [[Json.str "x", Json.null, Json.null, Json.str "d", Json.str "r"]], "t"⟩
        (initialState .absent .absent)).1 =
      .ok (.json (.arr ([[Json.str "x", Json.null, Json.null,
          Json.str "d", Json.str "r"]].map projRow)) 200) :=
  ⟨(C9_projection_totality [[Json.str "a"]] (initialState .absent .absent) "t").1
      ⟨[Json.str "a"], List.mem_singleton.mpr rfl, by simp⟩,
   (C9_projection_totality
      [[Json.str "x", Json.null, Json.null, Json.str "d", Json.str "r"]]
      (initialState .absent .absent) "t").2 (by simp)⟩

/-- C10: neither the orrery view nor the index route reads the
close-approach cache — two server states agreeing on `sbdb_data` and
`neo20.json` (but possibly differing in `sbdb_CA_data` and `neoCA.json`)
produce identical responses from both routes. -/
theorem C10_ca_cache_noninterference (s1 s2 : ServerState)
    (hd : s1.sbdb_data = s2.sbdb_data) (hf : s1.neo20 = s2.neo20) :
    (stepServer s1 .viewOrrery).1 = (stepServer s2 .viewOrrery).1 ∧
    (stepServer s1 .viewIndex).1 = (stepServer s2 .viewIndex).1 := by
  refine ⟨?_, rfl⟩
  rcases h : s2.sbdb_data with _ | b | n | st | xs | kvs <;>
    rw [h] at hd
  · rcases h2 : s2.neo20 with _ | _ | j <;> rw [h2] at hf <;>
      simp [stepServer, orrery, hd, hf, h, h2]
  all_goals simp [stepServer, orrery, hd, h]

/-- Witness for C10: two concrete states differing only in the
close-approach cache slot and file give the same responses. -/
theorem C10_ca_cache_noninterference_witness :
    (stepServer (initialState .absent .absent) .viewOrrery).1 =
      (stepServer { initialState .absent .absent with
        sbdb_CA_data := some [Json.null], neoCA := .present (.arr []) } .viewOrrery).1 ∧
    (stepServer (initialState .absent .absent) .viewIndex).1 =
      (stepServer { initialState .absent .absent with
        sbdb_CA_data := some [Json.null], neoCA := .present (.arr []) } .viewIndex).1 :=
  C10_ca_cache_noninterference (initialState .absent .absent)
    { initialState .absent .absent with
      sbdb_CA_data := some [Json.null], neoCA := .present (.arr []) } rfl rfl

end Smorrery
